import Mathlib

/-!
# sleepwatcher.c : a shallow embedding and its checked properties

The C program is a single file.  Its functions are embedded as state-passing
functions over the file-scoped variables (`args`, and the function-static
`rootPort` of `initializePowerNotifications`).  Every observable action of the
process (writes to the standard streams, `system`, `IOAllowPowerChange`,
`signal`, the registration calls) is recorded, in program order, in an effect
trace.  `exit` is an outcome that cuts the rest of the computation short.
The files a trace leaves behind are computed from it by `filesAfter`.

What the operating system and the C library decide (the result of `basename`,
of `fopen`, of `getpid`, of `IORegisterForSystemPower`, the status returned by
`system`, the stream of deliveries during `CFRunLoopRun`) is an explicit input.
-/

namespace Sleepwatcher

/-! ## Constants of the system headers -/

/-- The value of `LOG_ERR` in `<syslog.h>`. -/
def LOG_ERR : Int := 3

/-- The value of `LOG_INFO` in `<syslog.h>`. -/
def LOG_INFO : Int := 6

/-- The value of `SIGINT` in `<signal.h>`. -/
def SIGINT : Int := 2

/-- The value of `SIGTERM` in `<signal.h>`. -/
def SIGTERM : Int := 15

/-- The value of `kIOMessageSystemWillSleep` in `<IOKit/IOMessage.h>`,
`iokit_common_msg(0x280)`. -/
def kIOMessageSystemWillSleep : Nat := 0xe0000280

/-- The value of `kIOMessageSystemWillNotSleep` in `<IOKit/IOMessage.h>`,
`iokit_common_msg(0x290)`. -/
def kIOMessageSystemWillNotSleep : Nat := 0xe0000290

/-! ## Data model -/

/-- The file-scoped `struct args`.  A `char*` that may be `NULL` is an
`Option String`. -/
structure Args where
  argc : Int
  argv : List String
  progname : String
  sleepcommand : Option String
  deriving DecidableEq, Repr

/-- The mutable memory of the process: the global `args` and the
function-static `rootPort`. -/
structure State where
  args : Args
  rootPort : Nat
  deriving DecidableEq, Repr

/-- The zero-initialised static storage the process starts with. -/
def State.initial : State :=
  { args := { argc := 0, argv := [], progname := "", sleepcommand := none }, rootPort := 0 }

/-- One observable action of the process. -/
inductive Effect where
  /-- Text written to standard output. -/
  | stdout (text : String)
  /-- Text written to standard error. -/
  | stderr (text : String)
  /-- The pid `text` written by `writePidFile` to the file `path`. -/
  | pidWrite (path : String) (text : String)
  /-- A call `system(cmd)`. -/
  | system (cmd : String)
  /-- A call `IOAllowPowerChange(conn, token)`. -/
  | allowPowerChange (conn : Nat) (token : Int)
  /-- A call `signal(sig, signalCallback)`. -/
  | signal (sig : Int)
  /-- A call `IORegisterForSystemPower(&rootPort, ..., powerCallback, ...)`. -/
  | registerForSystemPower
  /-- The call `CFRunLoopAddSource(...)`. -/
  | runLoopAddSource
  /-- The call `CFRunLoopRun()`. -/
  | runLoopRun
  deriving DecidableEq, Repr

/-- How a computation ends: it returns a value, the process exits with a
status, or the process is still blocked in the event loop after everything
delivered so far has been dispatched. -/
inductive Outcome (α : Type) where
  | ret (a : α)
  | exit (code : Int)
  | waiting
  deriving DecidableEq, Repr

/-- The trace of a computation and how it ended. -/
structure Run (α : Type) where
  trace : List Effect
  outcome : Outcome α
  deriving DecidableEq, Repr

/-- A C function body: it reads and writes the process memory, performs
effects, and returns or ends the process. -/
def Prog (α : Type) : Type := State → Run (α × State)

/-- Returning a value performs nothing. -/
def Prog.pure {α : Type} (a : α) : Prog α :=
  fun s => { trace := [], outcome := Outcome.ret (a, s) }

/-- Sequencing: the second part runs only if the first returned. -/
def Prog.bind {α β : Type} (m : Prog α) (f : α → Prog β) : Prog β :=
  fun s =>
    match m s with
    | { trace := t, outcome := Outcome.ret (a, s1) } =>
        let r := f a s1
        { trace := t ++ r.trace, outcome := r.outcome }
    | { trace := t, outcome := Outcome.exit code } =>
        { trace := t, outcome := Outcome.exit code }
    | { trace := t, outcome := Outcome.waiting } =>
        { trace := t, outcome := Outcome.waiting }

instance : Monad Prog where
  pure := Prog.pure
  bind := Prog.bind

/-- Perform one effect. -/
def emit (e : Effect) : Prog Unit :=
  fun s => { trace := [e], outcome := Outcome.ret ((), s) }

/-- The C library call `exit(code)`. -/
def exit {α : Type} (code : Int) : Prog α :=
  fun _ => { trace := [], outcome := Outcome.exit code }

/-- Read the process memory. -/
def getState : Prog State :=
  fun s => { trace := [], outcome := Outcome.ret (s, s) }

/-- Overwrite the process memory. -/
def setState (s : State) : Prog Unit :=
  fun _ => { trace := [], outcome := Outcome.ret ((), s) }

/-- What the C library and the operating system answer. -/
structure Env where
  /-- The result of `basename(path)`; `none` is a `NULL` argument. -/
  basename : Option String → String
  /-- Whether `fopen(path, "w")` succeeds. -/
  fopenOk : String → Bool
  /-- The result of `getpid()`. -/
  getpid : Int
  /-- The connection returned by `IORegisterForSystemPower`; `0` is refusal. -/
  registerResult : Nat

/-! ## The functions of sleepwatcher.c -/

/-- The function `message`, applied to the text that `msg` and its arguments
format to. -/
def message (priority : Int) (text : String) : Prog Unit := do
  if priority < LOG_INFO then
    let s ← getState
    let line := s.args.progname ++ ": " ++ text
    if priority = LOG_INFO then emit (Effect.stdout line) else emit (Effect.stderr line)
  else
    Prog.pure ()

/-- The function `writePidFile`. -/
def writePidFile (env : Env) (pidfile : Option String) : Prog Unit :=
  match pidfile with
  | some path =>
      if env.fopenOk path then
        emit (Effect.pidWrite path (toString env.getpid))
      else
        message LOG_ERR ("can't write pidfile " ++ path ++ "\n")
  | none => Prog.pure ()

/-- The text `usage` prints for the program name `progname`. -/
def usageText (progname : String) : String :=
  "Usage: " ++ progname ++ " [-s sleepcommand]\n" ++
  "Daemon to monitor sleep of your Mac\n" ++
  "-s or --sleep\n" ++
  "       execute sleepcommand when the Mac is put to sleep mode\n" ++
  "       (sleepcommand must not take longer than 15 seconds because\n" ++
  "       after this timeout the sleep mode is forced by the system)\n"

/-- The function `usage`. -/
def usage {α : Type} : Prog α := do
  let s ← getState
  emit (Effect.stdout (usageText s.args.progname))
  exit 2

/-- The function `parseArgs`.  `*argv` and `argv[1]` are `NULL` when the
vector is too short (`argv[argc]` is `NULL`). -/
def parseArgs (env : Env) (argc : Int) (argv : List String) : Prog Unit := do
  let s ← getState
  setState { s with args :=
    { argc := argc, argv := argv, progname := env.basename argv.head?, sleepcommand := none } }
  writePidFile env none
  if argc = 2 then
    let s ← getState
    setState { s with args := { s.args with sleepcommand := argv[1]? } }
  else
    usage

/-- The function `powerCallback`.  `rootPort` is the connection the context
pointer points to, `msgArgument` the pointer-sized argument read as a
`long`, and `sys` the status `system` returns for a command. -/
def powerCallback (sys : String → Int) (rootPort : Nat) (y : Nat) (msgType : Nat)
    (msgArgument : Int) : Prog Unit := do
  let _ := y
  if msgType = kIOMessageSystemWillSleep then
    let s ← getState
    match s.args.sleepcommand with
    | some cmd =>
        emit (Effect.system cmd)
        message LOG_INFO ("sleep: " ++ cmd ++ ": " ++ toString (sys cmd) ++ "\n")
    | none => Prog.pure ()
    emit (Effect.allowPowerChange rootPort msgArgument)
  else if msgType = kIOMessageSystemWillNotSleep then
    message LOG_INFO ("can't sleep\n")
  else
    Prog.pure ()

/-- The function `initializePowerNotifications`. -/
def initializePowerNotifications (env : Env) : Prog Unit := do
  emit Effect.registerForSystemPower
  let s ← getState
  setState { s with rootPort := env.registerResult }
  if env.registerResult = 0 then
    message LOG_ERR "IORegisterForSystemPower failed\n"
    exit 1
  emit Effect.runLoopAddSource

/-- The function `signalCallback`. -/
def signalCallback (env : Env) (sig : Int) : Prog Unit := do
  if sig = SIGTERM ∨ sig = SIGINT then
    message LOG_INFO ("got " ++ (if sig = SIGTERM then "SIGTERM" else "SIGINT") ++ " - exiting\n")
    writePidFile env none
    exit 0
  else
    Prog.pure ()

/-- One thing the operating system hands to the process while it sits in
`CFRunLoopRun`: a power notification for `powerCallback` (with the status
`system` would return during it), or one of the two signals `main` installed
`signalCallback` for. -/
inductive Delivery where
  | power (service : Nat) (msgType : Nat) (msgArgument : Int) (sys : String → Int)
  | sigint
  | sigterm

/-- The process reacting to one delivery.  The context pointer registered by
`initializePowerNotifications` is `&rootPort`. -/
def dispatch (env : Env) : Delivery → Prog Unit
  | Delivery.power service msgType msgArgument sys => do
      let s ← getState
      powerCallback sys s.rootPort service msgType msgArgument
  | Delivery.sigint => signalCallback env SIGINT
  | Delivery.sigterm => signalCallback env SIGTERM

/-- The event loop `CFRunLoopRun()` over the deliveries made so far: each one
is dispatched in turn, on the single thread, and then the loop waits again. -/
def CFRunLoopRun (env : Env) : List Delivery → Prog Unit
  | [] => fun _ => { trace := [], outcome := Outcome.waiting }
  | d :: ds => do
      dispatch env d
      CFRunLoopRun env ds

/-- The function `main`; `argc` is the length of `argv`. -/
def main (env : Env) (argv : List String) (deliveries : List Delivery) : Prog Int := do
  parseArgs env argv.length argv
  emit (Effect.signal SIGINT)
  emit (Effect.signal SIGTERM)
  initializePowerNotifications env
  emit Effect.runLoopRun
  CFRunLoopRun env deliveries
  Prog.pure 0

/-! ## Reading a trace -/

/-- The acknowledgements of a trace, in order: connection and token of each
`IOAllowPowerChange` call. -/
def acks : List Effect → List (Nat × Int)
  | [] => []
  | Effect.allowPowerChange conn token :: es => (conn, token) :: acks es
  | _ :: es => acks es

/-- The commands handed to `system` in a trace, in order. -/
def commands : List Effect → List String
  | [] => []
  | Effect.system cmd :: es => cmd :: commands es
  | _ :: es => commands es

/-- The texts written to standard output in a trace, in order. -/
def stdoutLines : List Effect → List String
  | [] => []
  | Effect.stdout text :: es => text :: stdoutLines es
  | _ :: es => stdoutLines es

/-- The texts written to standard error in a trace, in order. -/
def stderrLines : List Effect → List String
  | [] => []
  | Effect.stderr text :: es => text :: stderrLines es
  | _ :: es => stderrLines es

/-- The signals a handler was installed for in a trace, in order. -/
def installs : List Effect → List Int
  | [] => []
  | Effect.signal sig :: es => sig :: installs es
  | _ :: es => installs es

/-- The number of registration calls in a trace. -/
def registrations : List Effect → Nat
  | [] => 0
  | Effect.registerForSystemPower :: es => registrations es + 1
  | _ :: es => registrations es

/-- A trace without its writes to the standard streams. -/
def nonLog : List Effect → List Effect
  | [] => []
  | Effect.stdout _ :: es => nonLog es
  | Effect.stderr _ :: es => nonLog es
  | e :: es => e :: nonLog es

/-- The tokens of the will-sleep notifications the event loop gets to
dispatch: those delivered before the first signal. -/
def dispatchedSleeps : List Delivery → List Int
  | [] => []
  | Delivery.power _ msgType msgArgument _ :: ds =>
      if msgType = kIOMessageSystemWillSleep then msgArgument :: dispatchedSleeps ds
      else dispatchedSleeps ds
  | Delivery.sigint :: _ => []
  | Delivery.sigterm :: _ => []

/-- Whether a signal is among the deliveries. -/
def hasSignal : List Delivery → Bool
  | [] => false
  | Delivery.power _ _ _ _ :: ds => hasSignal ds
  | Delivery.sigint :: _ => true
  | Delivery.sigterm :: _ => true

/-- What the event loop performs over the deliveries, for a configured
command `cmd` and a connection `conn`: for each will-sleep notification
before the first signal the command, if any, and the acknowledgement. -/
def loopEffects (cmd : Option String) (conn : Nat) : List Delivery → List Effect
  | [] => []
  | Delivery.power _ msgType msgArgument _ :: ds =>
      if msgType = kIOMessageSystemWillSleep then
        (match cmd with
          | some c => [Effect.system c]
          | none => []) ++ Effect.allowPowerChange conn msgArgument :: loopEffects cmd conn ds
      else loopEffects cmd conn ds
  | Delivery.sigint :: _ => []
  | Delivery.sigterm :: _ => []

/-- The memory after `parseArgs` on the vector `[p, c]`. -/
def parsed (env : Env) (p c : String) : State :=
  { args := { argc := 2, argv := [p, c], progname := env.basename (some p),
              sleepcommand := some c },
    rootPort := 0 }

/-- An environment for worked examples: registration is granted with
connection 7, and the program names used carry no slash, so that `basename`
gives them back. -/
def sampleEnv : Env :=
  { basename := fun path => path.getD ".",
    fopenOk := fun _ => true,
    getpid := 501,
    registerResult := 7 }

/-- The environment of `sampleEnv` with registration refused. -/
def refusingEnv : Env := { sampleEnv with registerResult := 0 }

/-! ## Sequencing -/

theorem pure_run {α : Type} (a : α) (s : State) :
    (pure a : Prog α) s = { trace := [], outcome := Outcome.ret (a, s) } := rfl

theorem bind_ret {α β : Type} (m : Prog α) (f : α → Prog β) (s s1 : State) (t : List Effect)
    (a : α) (h : m s = { trace := t, outcome := Outcome.ret (a, s1) }) :
    (m >>= f) s = { trace := t ++ (f a s1).trace, outcome := (f a s1).outcome } := by
  show Prog.bind m f s = _
  simp [Prog.bind, h]

theorem bind_exit {α β : Type} (m : Prog α) (f : α → Prog β) (s : State) (t : List Effect)
    (code : Int) (h : m s = { trace := t, outcome := Outcome.exit code }) :
    (m >>= f) s = { trace := t, outcome := Outcome.exit code } := by
  show Prog.bind m f s = _
  simp [Prog.bind, h]

theorem bind_waiting {α β : Type} (m : Prog α) (f : α → Prog β) (s : State) (t : List Effect)
    (h : m s = { trace := t, outcome := Outcome.waiting }) :
    (m >>= f) s = { trace := t, outcome := Outcome.waiting } := by
  show Prog.bind m f s = _
  simp [Prog.bind, h]

/-! ## The logger -/

/-- An informational message is dropped: `priority < LOG_INFO` fails. -/
theorem message_info (text : String) (s : State) :
    message LOG_INFO text s = { trace := [], outcome := Outcome.ret ((), s) } := by
  simp [message, Prog.pure, LOG_INFO]

/-- An error message goes to standard error, after the program name. -/
theorem message_err (text : String) (s : State) :
    message LOG_ERR text s =
      { trace := [Effect.stderr (s.args.progname ++ ": " ++ text)],
        outcome := Outcome.ret ((), s) } := by
  simp [message, bind, Prog.bind, emit, getState, LOG_INFO, LOG_ERR]

/-! ## The notification handler -/

/-- The handler on a will-sleep event, as one equation: the command, if any,
then the acknowledgement, and the memory is left as it was. -/
theorem powerCallback_willSleep (sys : String → Int) (h y : Nat) (t : Int) (s : State) :
    powerCallback sys h y kIOMessageSystemWillSleep t s =
      { trace := (match s.args.sleepcommand with
                  | some cmd => [Effect.system cmd]
                  | none => []) ++ [Effect.allowPowerChange h t],
        outcome := Outcome.ret ((), s) } := by
  cases hc : s.args.sleepcommand <;>
    simp [powerCallback, message, bind, Prog.bind, Prog.pure, emit, getState, LOG_INFO, hc]

/-- C1: a will-sleep event delivered to `powerCallback` with connection `h`
and token `t` yields exactly one acknowledgement, on `h` with `t`, whatever
the configuration and whatever status the command returns; the handler
returns. -/
theorem C1_willSleep_one_ack (sys : String → Int) (h y : Nat) (t : Int) (s : State) :
    acks (powerCallback sys h y kIOMessageSystemWillSleep t s).trace = [(h, t)] ∧
    (powerCallback sys h y kIOMessageSystemWillSleep t s).outcome = Outcome.ret ((), s) := by
  rw [powerCallback_willSleep]
  cases s.args.sleepcommand <;> simp [acks]

/-- The handler on any other event, as one equation: nothing is performed and
the memory is left as it was. -/
theorem powerCallback_other (sys : String → Int) (h y msgType : Nat) (t : Int) (s : State)
    (hne : msgType ≠ kIOMessageSystemWillSleep) :
    powerCallback sys h y msgType t s = { trace := [], outcome := Outcome.ret ((), s) } := by
  by_cases hn : msgType = kIOMessageSystemWillNotSleep
  · subst hn
    simp [powerCallback, hne, message_info]
  · simp [powerCallback, hne, hn, Prog.pure]

/-- C5: with no command configured, a will-sleep event yields exactly one
acknowledgement and no call of `system`. -/
theorem C5_no_command (sys : String → Int) (h y : Nat) (t : Int) (s : State)
    (hnone : s.args.sleepcommand = none) :
    acks (powerCallback sys h y kIOMessageSystemWillSleep t s).trace = [(h, t)] ∧
    commands (powerCallback sys h y kIOMessageSystemWillSleep t s).trace = [] := by
  rw [powerCallback_willSleep, hnone]
  simp [acks, commands]

theorem C5_no_command_witness :
    State.initial.args.sleepcommand = none ∧
    acks (powerCallback (fun _ => 0) 7 0 kIOMessageSystemWillSleep 42 State.initial).trace
      = [(7, 42)] ∧
    commands (powerCallback (fun _ => 0) 7 0 kIOMessageSystemWillSleep 42 State.initial).trace
      = [] :=
  ⟨rfl, C5_no_command (fun _ => 0) 7 0 42 State.initial rfl⟩

/-- C6: an event that is not will-sleep yields no acknowledgement and no call
of `system`, whatever the configuration; an event that is neither will-sleep
nor will-not-sleep performs nothing at all, so writes nothing either. -/
theorem C6_not_willSleep (sys : String → Int) (h y msgType : Nat) (t : Int) (s : State)
    (hne : msgType ≠ kIOMessageSystemWillSleep) :
    acks (powerCallback sys h y msgType t s).trace = [] ∧
    commands (powerCallback sys h y msgType t s).trace = [] ∧
    (msgType ≠ kIOMessageSystemWillNotSleep →
      powerCallback sys h y msgType t s = { trace := [], outcome := Outcome.ret ((), s) }) := by
  rw [powerCallback_other sys h y msgType t s hne]
  simp [acks, commands]

theorem C6_not_willSleep_witness :
    kIOMessageSystemWillNotSleep ≠ kIOMessageSystemWillSleep ∧
    acks (powerCallback (fun _ => 0) 7 0 kIOMessageSystemWillNotSleep 42
      { State.initial with args := { State.initial.args with sleepcommand := some "echo hi" } }
      ).trace = [] ∧
    commands (powerCallback (fun _ => 0) 7 0 kIOMessageSystemWillNotSleep 42
      { State.initial with args := { State.initial.args with sleepcommand := some "echo hi" } }
      ).trace = [] ∧
    powerCallback (fun _ => 0) 7 0 0xe0000300 42
      { State.initial with args := { State.initial.args with sleepcommand := some "echo hi" } }
      = { trace := [],
          outcome := Outcome.ret ((),
            { State.initial with
              args := { State.initial.args with sleepcommand := some "echo hi" } }) } :=
  ⟨by decide,
   (C6_not_willSleep (fun _ => 0) 7 0 kIOMessageSystemWillNotSleep 42
      { State.initial with args := { State.initial.args with sleepcommand := some "echo hi" } }
      (by decide)).1,
   (C6_not_willSleep (fun _ => 0) 7 0 kIOMessageSystemWillNotSleep 42
      { State.initial with args := { State.initial.args with sleepcommand := some "echo hi" } }
      (by decide)).2.1,
   (C6_not_willSleep (fun _ => 0) 7 0 0xe0000300 42
      { State.initial with args := { State.initial.args with sleepcommand := some "echo hi" } }
      (by decide)).2.2 (by decide)⟩

/-- C10: with a command `c` configured, what a will-sleep event performs
besides writing to the standard streams is the call `system(c)` and then the
one acknowledgement, in that order, on the event's connection and token,
whatever status `system` returns. -/
theorem C10_command_then_ack (sys : String → Int) (h y : Nat) (t : Int) (s : State) (c : String)
    (hc : s.args.sleepcommand = some c) :
    nonLog (powerCallback sys h y kIOMessageSystemWillSleep t s).trace =
      [Effect.system c, Effect.allowPowerChange h t] ∧
    (powerCallback sys h y kIOMessageSystemWillSleep t s).outcome = Outcome.ret ((), s) := by
  rw [powerCallback_willSleep, hc]
  simp [nonLog]

theorem C10_command_then_ack_witness :
    nonLog (powerCallback (fun _ => 256) 7 0 kIOMessageSystemWillSleep 42
      { State.initial with args := { State.initial.args with sleepcommand := some "false" } }
      ).trace = [Effect.system "false", Effect.allowPowerChange 7 42] :=
  (C10_command_then_ack (fun _ => 256) 7 0 42
      { State.initial with args := { State.initial.args with sleepcommand := some "false" } }
      "false" rfl).1

/-- C9, the code at the failing input: with the program name `sleepwatcher`
and the command `echo hi` configured, a will-sleep event during which `system`
returns `0` writes nothing to standard output and nothing to standard error;
and `message` drops every `LOG_INFO` message. -/
theorem C9_info_line_not_written :
    stdoutLines (powerCallback (fun _ => 0) 7 0 kIOMessageSystemWillSleep 42
      { args := { argc := 2, argv := ["sleepwatcher", "echo hi"], progname := "sleepwatcher",
                  sleepcommand := some "echo hi" }, rootPort := 7 }).trace = [] ∧
    stderrLines (powerCallback (fun _ => 0) 7 0 kIOMessageSystemWillSleep 42
      { args := { argc := 2, argv := ["sleepwatcher", "echo hi"], progname := "sleepwatcher",
                  sleepcommand := some "echo hi" }, rootPort := 7 }).trace = [] ∧
    ∀ (text : String) (s : State), (message LOG_INFO text s).trace = [] := by
  refine ⟨?_, ?_, ?_⟩
  · rw [powerCallback_willSleep]; simp [stdoutLines]
  · rw [powerCallback_willSleep]; simp [stderrLines]
  · intro text s; rw [message_info]

/-! ## Start-up -/

/-- With `argc = 2`, `parseArgs` returns, having performed nothing, with
`argv[1]` stored as the command. -/
theorem parseArgs_two (env : Env) (argv : List String) (s : State) :
    parseArgs env 2 argv s =
      { trace := [],
        outcome := Outcome.ret ((), { s with args :=
          { argc := 2, argv := argv, progname := env.basename argv.head?,
            sleepcommand := argv[1]? } }) } := by
  simp [parseArgs, writePidFile, bind, Prog.bind, Prog.pure, getState, setState]

/-- With `argc ≠ 2`, `parseArgs` prints the usage text and exits with 2. -/
theorem parseArgs_usage (env : Env) (argc : Int) (argv : List String) (s : State)
    (hne : argc ≠ 2) :
    parseArgs env argc argv s =
      { trace := [Effect.stdout (usageText (env.basename argv.head?))],
        outcome := Outcome.exit 2 } := by
  simp [parseArgs, writePidFile, usage, exit, emit, bind, Prog.bind, Prog.pure, getState,
    setState, hne]

/-- A refused registration: the error line on standard error, then exit 1. -/
theorem initializePowerNotifications_refused (env : Env) (s : State)
    (h0 : env.registerResult = 0) :
    initializePowerNotifications env s =
      { trace := [Effect.registerForSystemPower,
                  Effect.stderr (s.args.progname ++ ": " ++ "IORegisterForSystemPower failed\n")],
        outcome := Outcome.exit 1 } := by
  simp [initializePowerNotifications, message, exit, emit, bind, Prog.bind, Prog.pure, getState,
    setState, h0, LOG_ERR, LOG_INFO]

/-- A granted registration: the source is attached and the connection kept. -/
theorem initializePowerNotifications_granted (env : Env) (s : State)
    (h0 : env.registerResult ≠ 0) :
    initializePowerNotifications env s =
      { trace := [Effect.registerForSystemPower, Effect.runLoopAddSource],
        outcome := Outcome.ret ((), { s with rootPort := env.registerResult }) } := by
  simp [initializePowerNotifications, emit, bind, Prog.bind, Prog.pure, pure_run, getState,
    setState, h0]

/-! ## The termination handler -/

/-- The handler on either of its two signals, as one equation. -/
theorem signalCallback_handled (env : Env) (sig : Int) (s : State)
    (hsig : sig = SIGINT ∨ sig = SIGTERM) :
    signalCallback env sig s = { trace := [], outcome := Outcome.exit 0 } := by
  have hsig2 : sig = SIGTERM ∨ sig = SIGINT := hsig.symm
  simp only [signalCallback, hsig2, if_true]
  rw [bind_ret _ _ s s [] () (message_info _ s)]
  simp [writePidFile, exit, bind, Prog.bind, Prog.pure]

/-! ## The event loop -/

/-- The event loop, as one equation: the handlers never change the memory, a
signal ends the process with status 0, and otherwise the loop keeps waiting. -/
theorem CFRunLoopRun_run (env : Env) (ds : List Delivery) (s : State) :
    CFRunLoopRun env ds s =
      { trace := loopEffects s.args.sleepcommand s.rootPort ds,
        outcome := if hasSignal ds then Outcome.exit 0 else Outcome.waiting } := by
  induction ds with
  | nil => simp [CFRunLoopRun, loopEffects, hasSignal]
  | cons d ds ih =>
    cases d with
    | power service msgType msgArgument sys =>
      by_cases hm : msgType = kIOMessageSystemWillSleep
      · subst hm
        have hd : dispatch env (Delivery.power service kIOMessageSystemWillSleep msgArgument sys) s
            = { trace := (match s.args.sleepcommand with
                          | some cmd => [Effect.system cmd]
                          | none => []) ++ [Effect.allowPowerChange s.rootPort msgArgument],
                outcome := Outcome.ret ((), s) } := by
          simp only [dispatch]
          rw [bind_ret _ _ s s [] s rfl, powerCallback_willSleep]
          simp
        simp only [CFRunLoopRun]
        rw [bind_ret _ _ s s _ () hd, ih]
        simp [loopEffects, hasSignal]
      · have hd : dispatch env (Delivery.power service msgType msgArgument sys) s
            = { trace := [], outcome := Outcome.ret ((), s) } := by
          simp only [dispatch]
          rw [bind_ret _ _ s s [] s rfl, powerCallback_other sys _ _ _ _ _ hm]
          simp
        simp only [CFRunLoopRun]
        rw [bind_ret _ _ s s _ () hd, ih]
        simp [loopEffects, hasSignal, hm]
    | sigint =>
      simp only [CFRunLoopRun, dispatch]
      rw [bind_exit _ _ s [] 0 (signalCallback_handled env SIGINT s (Or.inl rfl))]
      simp [loopEffects, hasSignal]
    | sigterm =>
      simp only [CFRunLoopRun, dispatch]
      rw [bind_exit _ _ s [] 0 (signalCallback_handled env SIGTERM s (Or.inr rfl))]
      simp [loopEffects, hasSignal]

theorem commands_loopEffects (c : String) (conn : Nat) (ds : List Delivery) :
    commands (loopEffects (some c) conn ds) = (dispatchedSleeps ds).map (fun _ => c) := by
  induction ds with
  | nil => rfl
  | cons d ds ih =>
    cases d with
    | power service msgType msgArgument sys =>
      by_cases hm : msgType = kIOMessageSystemWillSleep <;>
        simp [loopEffects, dispatchedSleeps, commands, hm, ih]
    | sigint => rfl
    | sigterm => rfl

theorem acks_loopEffects (cmd : Option String) (conn : Nat) (ds : List Delivery) :
    acks (loopEffects cmd conn ds) = (dispatchedSleeps ds).map (fun t => (conn, t)) := by
  induction ds with
  | nil => rfl
  | cons d ds ih =>
    cases d with
    | power service msgType msgArgument sys =>
      by_cases hm : msgType = kIOMessageSystemWillSleep
      · cases cmd <;> simp [loopEffects, dispatchedSleeps, acks, hm, ih]
      · simp [loopEffects, dispatchedSleeps, hm, ih]
    | sigint => rfl
    | sigterm => rfl

/-- A malformed invocation, as one equation. -/
theorem main_usage (env : Env) (argv : List String) (ds : List Delivery)
    (hne : argv.length ≠ 2) :
    main env argv ds State.initial =
      { trace := [Effect.stdout (usageText (env.basename argv.head?))],
        outcome := Outcome.exit 2 } := by
  have hne2 : (argv.length : Int) ≠ 2 := by exact_mod_cast hne
  simp only [main]
  rw [bind_exit _ _ _ _ 2 (parseArgs_usage env _ argv State.initial hne2)]

/-- One command argument and a refused registration, as one equation. -/
theorem main_refused (env : Env) (p c : String) (ds : List Delivery)
    (h0 : env.registerResult = 0) :
    main env [p, c] ds State.initial =
      { trace := [Effect.signal SIGINT, Effect.signal SIGTERM, Effect.registerForSystemPower,
                  Effect.stderr (env.basename (some p) ++ ": " ++
                    "IORegisterForSystemPower failed\n")],
        outcome := Outcome.exit 1 } := by
  have hp : parseArgs env (([p, c] : List String).length : Int) [p, c] State.initial =
      { trace := [], outcome := Outcome.ret ((), parsed env p c) } := by
    have := parseArgs_two env [p, c] State.initial
    simpa [parsed, State.initial] using this
  simp only [main]
  rw [bind_ret _ _ _ _ _ () hp]
  rw [bind_ret _ _ _ _ _ () (rfl : emit (Effect.signal SIGINT) (parsed env p c) = _)]
  rw [bind_ret _ _ _ _ _ () (rfl : emit (Effect.signal SIGTERM) (parsed env p c) = _)]
  rw [bind_exit _ _ _ _ 1 (initializePowerNotifications_refused env (parsed env p c) h0)]
  simp [parsed]

/-- One command argument and a granted registration, as one equation. -/
theorem main_granted (env : Env) (p c : String) (ds : List Delivery)
    (h0 : env.registerResult ≠ 0) :
    main env [p, c] ds State.initial =
      { trace := [Effect.signal SIGINT, Effect.signal SIGTERM, Effect.registerForSystemPower,
                  Effect.runLoopAddSource, Effect.runLoopRun] ++
                  loopEffects (some c) env.registerResult ds,
        outcome := if hasSignal ds then Outcome.exit 0 else Outcome.waiting } := by
  have hp : parseArgs env (([p, c] : List String).length : Int) [p, c] State.initial =
      { trace := [], outcome := Outcome.ret ((), parsed env p c) } := by
    have := parseArgs_two env [p, c] State.initial
    simpa [parsed, State.initial] using this
  simp only [main]
  rw [bind_ret _ _ _ _ _ () hp]
  rw [bind_ret _ _ _ _ _ () (rfl : emit (Effect.signal SIGINT) (parsed env p c) = _)]
  rw [bind_ret _ _ _ _ _ () (rfl : emit (Effect.signal SIGTERM) (parsed env p c) = _)]
  rw [bind_ret _ _ _ _ _ () (initializePowerNotifications_granted env (parsed env p c) h0)]
  rw [bind_ret _ _ _ _ _ () (rfl : emit Effect.runLoopRun
    { parsed env p c with rootPort := env.registerResult } = _)]
  have hl := CFRunLoopRun_run env ds { parsed env p c with rootPort := env.registerResult }
  by_cases hs : hasSignal ds = true
  · rw [hs] at hl
    simp only [if_true] at hl
    rw [bind_exit _ _ _ _ 0 hl]
    simp [parsed, hs]
  · have hs2 : hasSignal ds = false := by simpa using hs
    rw [hs2] at hl
    simp only [Bool.false_eq_true, if_false] at hl
    rw [bind_waiting _ _ _ _ hl]
    simp [parsed, hs2]

/-- Over a run of `main` that registered, the acknowledgements are one for
each will-sleep notification dispatched, in order, each on the registered
connection with the notification's token. -/
theorem acks_main (env : Env) (p c : String) (ds : List Delivery)
    (h0 : env.registerResult ≠ 0) :
    acks (main env [p, c] ds State.initial).trace =
      (dispatchedSleeps ds).map (fun t => (env.registerResult, t)) := by
  rw [main_granted env p c ds h0]
  simp [acks, acks_loopEffects]

/-! ## The claims about start-up, the event loop and termination -/

/-- C2, the code at the failing input: the invocation `sleepwatcher -s "echo hi"`
prints the usage text and exits with status 2, before any registration,
whatever the environment and whatever would be delivered later. -/
theorem C2_dash_s_rejected (env : Env) (ds : List Delivery) :
    main env ["sleepwatcher", "-s", "echo hi"] ds State.initial =
      { trace := [Effect.stdout (usageText (env.basename (some "sleepwatcher")))],
        outcome := Outcome.exit 2 } :=
  main_usage env ["sleepwatcher", "-s", "echo hi"] ds (by decide)

/-- C3: an invocation whose `argc` is not 2 prints the usage text on standard
output and exits with status 2, and that is all it does: no registration call
and no signal handler installed. -/
theorem C3_malformed_usage_exit (env : Env) (argv : List String) (ds : List Delivery)
    (hne : argv.length ≠ 2) :
    (main env argv ds State.initial).outcome = Outcome.exit 2 ∧
    (main env argv ds State.initial).trace =
      [Effect.stdout (usageText (env.basename argv.head?))] ∧
    registrations (main env argv ds State.initial).trace = 0 ∧
    installs (main env argv ds State.initial).trace = [] := by
  rw [main_usage env argv ds hne]
  exact ⟨rfl, rfl, rfl, rfl⟩

theorem C3_malformed_usage_exit_witness :
    (main sampleEnv ["sleepwatcher"] [Delivery.sigint] State.initial).outcome = Outcome.exit 2 ∧
    (main sampleEnv ["sleepwatcher"] [Delivery.sigint] State.initial).trace =
      [Effect.stdout (usageText "sleepwatcher")] ∧
    registrations (main sampleEnv ["sleepwatcher"] [Delivery.sigint] State.initial).trace = 0 ∧
    installs (main sampleEnv ["sleepwatcher"] [Delivery.sigint] State.initial).trace = [] :=
  C3_malformed_usage_exit sampleEnv ["sleepwatcher"] [Delivery.sigint] (by decide)

/-- C4: for the vector `[p, c]`, `parseArgs` returns with `c` itself stored as
the command; `powerCallback` always returns with the memory as it found it;
with `c` stored, a will-sleep event hands exactly `c` to `system`, once; and
over a run of `main` the commands handed to `system` are `c`, once for each
will-sleep notification dispatched. -/
theorem C4_command_verbatim (env : Env) (p c : String) (ds : List Delivery)
    (h0 : env.registerResult ≠ 0) :
    (parseArgs env 2 [p, c] State.initial).outcome = Outcome.ret ((), parsed env p c) ∧
    (parsed env p c).args.sleepcommand = some c ∧
    (∀ (sys : String → Int) (h y msgType : Nat) (t : Int) (s : State),
      (powerCallback sys h y msgType t s).outcome = Outcome.ret ((), s)) ∧
    (∀ (sys : String → Int) (h y : Nat) (t : Int) (s : State), s.args.sleepcommand = some c →
      commands (powerCallback sys h y kIOMessageSystemWillSleep t s).trace = [c]) ∧
    commands (main env [p, c] ds State.initial).trace =
      (dispatchedSleeps ds).map (fun _ => c) := by
  refine ⟨?_, rfl, ?_, ?_, ?_⟩
  · rw [parseArgs_two]; rfl
  · intro sys h y msgType t s
    by_cases hm : msgType = kIOMessageSystemWillSleep
    · subst hm; rw [powerCallback_willSleep]
    · rw [powerCallback_other sys h y msgType t s hm]
  · intro sys h y t s hc
    rw [powerCallback_willSleep, hc]; rfl
  · rw [main_granted env p c ds h0]
    simp [commands, commands_loopEffects]

theorem C4_command_verbatim_witness :
    sampleEnv.registerResult ≠ 0 ∧
    commands (main sampleEnv ["sleepwatcher", "echo  hi; true"]
      [Delivery.power 0 kIOMessageSystemWillSleep 42 (fun _ => 0),
       Delivery.power 0 kIOMessageSystemWillNotSleep 0 (fun _ => 0),
       Delivery.power 0 kIOMessageSystemWillSleep 43 (fun _ => 1)] State.initial).trace =
      ["echo  hi; true", "echo  hi; true"] :=
  ⟨by decide,
   (C4_command_verbatim sampleEnv "sleepwatcher" "echo  hi; true"
      [Delivery.power 0 kIOMessageSystemWillSleep 42 (fun _ => 0),
       Delivery.power 0 kIOMessageSystemWillNotSleep 0 (fun _ => 0),
       Delivery.power 0 kIOMessageSystemWillSleep 43 (fun _ => 1)] (by decide)).2.2.2.2⟩

/-- C8: when `IORegisterForSystemPower` returns 0,
`initializePowerNotifications` writes the line
`<progname>: IORegisterForSystemPower failed` to standard error and exits with
status 1; in a run of `main` the process registers once, attaches no source,
never enters the event loop, and exits with status 1. -/
theorem C8_registration_refused (env : Env) (s : State) (p c : String) (ds : List Delivery)
    (h0 : env.registerResult = 0) :
    initializePowerNotifications env s =
      { trace := [Effect.registerForSystemPower,
                  Effect.stderr (s.args.progname ++ ": " ++ "IORegisterForSystemPower failed\n")],
        outcome := Outcome.exit 1 } ∧
    (main env [p, c] ds State.initial).outcome = Outcome.exit 1 ∧
    stderrLines (main env [p, c] ds State.initial).trace =
      [env.basename (some p) ++ ": " ++ "IORegisterForSystemPower failed\n"] ∧
    stdoutLines (main env [p, c] ds State.initial).trace = [] ∧
    registrations (main env [p, c] ds State.initial).trace = 1 ∧
    Effect.runLoopAddSource ∉ (main env [p, c] ds State.initial).trace ∧
    Effect.runLoopRun ∉ (main env [p, c] ds State.initial).trace := by
  rw [main_refused env p c ds h0]
  refine ⟨initializePowerNotifications_refused env s h0, rfl, rfl, rfl, rfl, ?_, ?_⟩ <;> simp

theorem C8_registration_refused_witness :
    refusingEnv.registerResult = 0 ∧
    (main refusingEnv ["sleepwatcher", "echo hi"]
      [Delivery.power 0 kIOMessageSystemWillSleep 42 (fun _ => 0)] State.initial).outcome
      = Outcome.exit 1 ∧
    stderrLines (main refusingEnv ["sleepwatcher", "echo hi"]
      [Delivery.power 0 kIOMessageSystemWillSleep 42 (fun _ => 0)] State.initial).trace
      = ["sleepwatcher: IORegisterForSystemPower failed\n"] :=
  ⟨rfl,
   (C8_registration_refused refusingEnv State.initial "sleepwatcher" "echo hi"
      [Delivery.power 0 kIOMessageSystemWillSleep 42 (fun _ => 0)] rfl).2.1,
   (C8_registration_refused refusingEnv State.initial "sleepwatcher" "echo hi"
      [Delivery.power 0 kIOMessageSystemWillSleep 42 (fun _ => 0)] rfl).2.2.1⟩

end Sleepwatcher
